import Mathlib

/-!
Shallow embedding of the Process Supervisor of server-startovator-inator
(src/bot.py). The supervisor's mutable module-level state
(`server_process`, `server_in_error`, `last_exit_code`, and the status
string maintained through `set_status`) is modelled as a record
`SupState`; each public operation (`start_server`, `stop_server`,
`kill_server`, `status_cmd`) and the monitor thread body
(`monitor_process`) becomes a function from the state (plus an
environment record describing what the external OS process does during
the call) to the new state and a typed result.

Modelling conventions:
- Liveness (`subprocess.Popen.poll() is None`) at each point where the
  code samples it is an explicit Bool input (`aliveNow`, `aliveAfterGrace`,
  `aliveAfterTreeKill`), since it is decided by the external process.
- The "lifecycle" of the spec corresponds to the status string passed to
  `set_status` in the code ("Starting...", "Online", "Stopping...",
  "Error", "Offline"); it is modelled as the `Lifecycle` enum. `set_status`
  itself only deduplicates/publishes presence, so a call `set_status s`
  is modelled as assigning `lifecycle := s`.
- Exit codes are Python ints, modelled as `Int`. `last_exit_code = None`
  is `Option.none`.
- Exceptions caught by the code become environment variants
  (`StartEnv.spawnErr`, `StopEnv.writeFail`, `KillEnv.pollFails`, ...);
  the code's handlers are translated branch by branch.
-/

namespace Startovator

/-- Status values that the supervisor publishes via `set_status`
("Starting...", "Online", "Stopping...", "Error", "Offline" in bot.py). -/
inductive Lifecycle
  | Offline
  | Starting
  | Online
  | Stopping
  | Error
  deriving DecidableEq, Repr

/-- A `subprocess.Popen` handle as far as the supervisor state is
concerned: the supervisor only stores the reference and reads `pid`.
Liveness and exit codes are sampled from the environment at each call. -/
structure ProcHandle where
  pid : Nat
  deriving DecidableEq, Repr

/-- The module-level mutable state of bot.py:
`server_process`, `server_in_error`, `last_exit_code`, and the published
status (`lifecycle`). -/
structure SupState where
  server_process : Option ProcHandle
  server_in_error : Bool
  last_exit_code : Option Int
  lifecycle : Lifecycle
  deriving DecidableEq, Repr

/-- Initial state: `server_process = None`, `server_in_error = False`,
`last_exit_code = None`; `update_initial_status` publishes "Offline"
when there is no process and no error flag. -/
def initState : SupState :=
  { server_process := none
    server_in_error := false
    last_exit_code := none
    lifecycle := Lifecycle.Offline }

/-- bot.py `server_running()`: `False` when `server_process is None`,
otherwise `poll() is None` (the liveness sample `aliveNow`). -/
def server_running (st : SupState) (aliveNow : Bool) : Bool :=
  match st.server_process with
  | none => false
  | some _ => aliveNow

/-- The fixed grace interval of `start_server`:
`await asyncio.sleep(3)` in bot.py. -/
def grace_seconds : Nat := 3

/-- The stream configuration `start_server` passes to `subprocess.Popen`:
`stdin=PIPE` (writable input), `stdout=PIPE` (captured output),
`stderr=STDOUT` (merged into the captured stream). -/
structure PopenConfig where
  stdin_pipe : Bool
  stdout_pipe : Bool
  stderr_to_stdout : Bool
  deriving DecidableEq, Repr

/-- The concrete configuration used at the `subprocess.Popen` call in
`start_server` (bot.py lines 344-354). -/
def start_popen_config : PopenConfig :=
  { stdin_pipe := true, stdout_pipe := true, stderr_to_stdout := true }

/-- Environment of a `start_server` call: what `subprocess.Popen` and the
spawned process do.
- `launchNotFound`: `Popen` raises `FileNotFoundError` (handle unchanged,
  since the assignment never happens).
- `spawnErr`: `Popen` (or the spawn sequence) raises a generic exception.
- `spawned h aliveAfterGrace deadCode`: `Popen` returns handle `h`; after
  the 3 s grace sleep, `server_running()` samples `aliveAfterGrace`; if the
  process already died, `returncode` is `deadCode`. -/
inductive StartEnv
  | launchNotFound
  | spawnErr
  | spawned (h : ProcHandle) (aliveAfterGrace : Bool) (deadCode : Int)
  deriving DecidableEq, Repr

/-- Result of `start_server`, one variant per reply branch in bot.py. -/
inductive StartResult
  | alreadyRunning
  | launchNotFound
  | startError
  | startupFailed (code : Int)
  | started
  deriving DecidableEq, Repr

/-- bot.py `start_server` (lines 327-404), translated branch by branch:
entry guard `if server_running(): return already_running`; then
`set_status("Starting...")`, `server_in_error = False`,
`last_exit_code = None`; then `Popen` with the three exception/continue
branches; on spawn, sleep 3 s, re-check liveness; dead → record
`returncode`, set error flag, `set_status("Error")`, reply StartupFailed;
alive → `set_status("Online")`, reply started. -/
def start_server (st : SupState) (aliveNow : Bool) (env : StartEnv) :
    SupState × StartResult :=
  if server_running st aliveNow then
    (st, StartResult.alreadyRunning)
  else
    let st1 : SupState :=
      { st with lifecycle := Lifecycle.Starting
                server_in_error := false
                last_exit_code := none }
    match env with
    | StartEnv.launchNotFound =>
        ({ st1 with server_in_error := true, lifecycle := Lifecycle.Error },
         StartResult.launchNotFound)
    | StartEnv.spawnErr =>
        ({ st1 with server_in_error := true, lifecycle := Lifecycle.Error },
         StartResult.startError)
    | StartEnv.spawned h aliveAfterGrace deadCode =>
        let st2 : SupState := { st1 with server_process := some h }
        if aliveAfterGrace then
          ({ st2 with lifecycle := Lifecycle.Online }, StartResult.started)
        else
          ({ st2 with server_in_error := true
                      last_exit_code := some deadCode
                      lifecycle := Lifecycle.Error },
           StartResult.startupFailed deadCode)

/-- Environment of a `stop_server` call.
- `writeFail`: `stdin.write`/`flush` raises.
- `waitTimeout`: `asyncio.wait_for(..., timeout=stop_timeout)` raises
  `asyncio.TimeoutError`.
- `waitErr`: the executor wait raises some other exception.
- `exited code`: `server_process.wait()` returns `code` within the
  timeout. -/
inductive StopEnv
  | writeFail
  | waitTimeout
  | waitErr
  | exited (code : Int)
  deriving DecidableEq, Repr

/-- Result of `stop_server`, one variant per reply branch in bot.py.
`shutdownTimeout` carries the configured `config["server"]["stop_timeout"]`
value, as in `TRANSLATIONS["stop_timeout"].format(timeout=...)`. -/
inductive StopResult
  | notRunning
  | signalSendFailed
  | shutdownTimeout (seconds : Nat)
  | stopError
  | stoppedWithError (code : Int)
  | stopped (code : Int)
  deriving DecidableEq, Repr

/-- bot.py `stop_server` (lines 414-466): entry guard
`if not server_running(): return not_running`; `set_status("Stopping...")`;
write "stop" to stdin (failure → error flag, "Error", SignalSendFailed,
handle NOT cleared); await exit with `stop_timeout` (timeout or other
exception → error flag, "Error", handle NOT cleared); on exit within the
timeout record `last_exit_code`, then nonzero → error flag + "Error",
zero → clear flag + "Offline", and in both exit branches
`server_process = None` at the end. -/
def stop_server (st : SupState) (aliveNow : Bool) (stop_timeout : Nat)
    (env : StopEnv) : SupState × StopResult :=
  if server_running st aliveNow then
    let st1 : SupState := { st with lifecycle := Lifecycle.Stopping }
    match env with
    | StopEnv.writeFail =>
        ({ st1 with server_in_error := true, lifecycle := Lifecycle.Error },
         StopResult.signalSendFailed)
    | StopEnv.waitTimeout =>
        ({ st1 with server_in_error := true, lifecycle := Lifecycle.Error },
         StopResult.shutdownTimeout stop_timeout)
    | StopEnv.waitErr =>
        ({ st1 with server_in_error := true, lifecycle := Lifecycle.Error },
         StopResult.stopError)
    | StopEnv.exited code =>
        let st2 : SupState := { st1 with last_exit_code := some code }
        if code ≠ 0 then
          ({ st2 with server_in_error := true
                      lifecycle := Lifecycle.Error
                      server_process := none },
           StopResult.stoppedWithError code)
        else
          ({ st2 with server_in_error := false
                      lifecycle := Lifecycle.Offline
                      server_process := none },
           StopResult.stopped code)
  else
    (st, StopResult.notRunning)

/-- Environment of a `kill_server` call.
`kill_process_tree` itself catches `TimeoutExpired` and every other
exception internally (bot.py lines 142-155), so the taskkill outcome never
influences control flow and is not modelled.
- `aliveAfterTreeKill`: the `poll() is None` sample 2 s after taskkill,
  deciding whether `server_process.kill()` is issued as a second attempt.
- `pollFails`: the `poll()`/`kill()` block raises → `last_exit_code = -1`.
- `finalPoll`: otherwise, the value of `server_process.poll()` recorded
  into `last_exit_code` (possibly `None` if the process still has not
  been reaped). -/
structure KillEnv where
  aliveAfterTreeKill : Bool
  pollFails : Bool
  finalPoll : Option Int
  deriving DecidableEq, Repr

/-- Result of `kill_server`: the NotRunning guard reply, or completion. -/
inductive KillResult
  | notRunning
  | killed
  deriving DecidableEq, Repr

/-- bot.py `kill_server` (lines 476-513): entry guard
`if not server_running(): return not_running`; run `kill_process_tree`
(which swallows its own failures); sleep 2 s; if still alive issue
`server_process.kill()`; `last_exit_code = poll()` or `-1` if that block
raises; then unconditionally `server_process = None`,
`server_in_error = False`, `set_status("Offline")`. -/
def kill_server (st : SupState) (aliveNow : Bool) (env : KillEnv) :
    SupState × KillResult :=
  if server_running st aliveNow then
    let lec : Option Int := if env.pollFails then some (-1) else env.finalPoll
    ({ st with last_exit_code := lec
               server_process := none
               server_in_error := false
               lifecycle := Lifecycle.Offline },
     KillResult.killed)
  else
    (st, KillResult.notRunning)

/-- The status headline computed by `status_cmd`. -/
inductive StatusView
  | online
  | error
  | offline
  deriving DecidableEq, Repr

/-- bot.py `status_cmd` (lines 523-533): `running = server_running()`;
running → "Online"; else `server_in_error` → "Error"; else "Offline".
A pure read, no state mutation. -/
def status_cmd (st : SupState) (aliveNow : Bool) : StatusView :=
  if server_running st aliveNow then
    StatusView.online
  else if st.server_in_error then
    StatusView.error
  else
    StatusView.offline

/-- Environment of the monitor thread body once it reaches a terminal
event: either the combined output stream closed and `wait()` returned
`code`, or an exception was raised while reading/waiting. -/
inductive MonitorEnv
  | streamClosed (code : Int)
  | readErr
  deriving DecidableEq, Repr

/-- bot.py `monitor_process` (lines 161-185): if `server_process is None`
return untouched; on end of stream, `last_exit_code = wait()` and, if the
code is nonzero, `server_in_error = True` (the zero branch only logs, it
does not clear the flag); on any exception, `server_in_error = True`.
The function consults only the current module-level `server_process`; it
carries no record of which process it was spawned to relay. -/
def monitor_process (st : SupState) (env : MonitorEnv) : SupState :=
  match st.server_process with
  | none => st
  | some _ =>
    match env with
    | MonitorEnv.streamClosed code =>
        let st1 : SupState := { st with last_exit_code := some code }
        if code ≠ 0 then { st1 with server_in_error := true } else st1
    | MonitorEnv.readErr => { st with server_in_error := true }

/-- One public operation of the supervisor, with the environment inputs
that drive it. -/
inductive Op
  | opStart (aliveNow : Bool) (env : StartEnv)
  | opStop (aliveNow : Bool) (stop_timeout : Nat) (env : StopEnv)
  | opKill (aliveNow : Bool) (env : KillEnv)
  | opStatus (aliveNow : Bool)
  deriving Repr

/-- Run one public operation, keeping only the state. `status_cmd` is a
pure read. -/
def runOp (st : SupState) : Op → SupState
  | Op.opStart a e => (start_server st a e).1
  | Op.opStop a t e => (stop_server st a t e).1
  | Op.opKill a e => (kill_server st a e).1
  | Op.opStatus _ => st

/-- States reachable from the initial state by sequences of completed
public operations. -/
inductive Reachable : SupState → Prop
  | init : Reachable initState
  | next (st : SupState) (op : Op) : Reachable st → Reachable (runOp st op)

/-- The invariant claimed by the spec (claim C1, stated from the spec
text): the handle is present iff the lifecycle is Starting, Online or
Stopping, and `last_exit_code` is `None` while the handle is present. -/
def specInvariant (st : SupState) : Prop :=
  (st.server_process.isSome = true ↔
    (st.lifecycle = Lifecycle.Starting ∨ st.lifecycle = Lifecycle.Online ∨
     st.lifecycle = Lifecycle.Stopping))
  ∧ (st.server_process.isSome = true → st.last_exit_code = none)

/-- The invariant the code actually maintains: after every completed
public operation the lifecycle is never Starting or Stopping; the handle
is absent whenever the lifecycle is Offline; and in lifecycle Online the
handle is present with `last_exit_code = None` and the error flag clear.
In lifecycle Error the handle may or may not be retained. -/
def codeInvariant (st : SupState) : Prop :=
  (st.lifecycle = Lifecycle.Offline → st.server_process = none)
  ∧ (st.lifecycle = Lifecycle.Online →
       st.server_process.isSome = true ∧ st.last_exit_code = none ∧
       st.server_in_error = false)
  ∧ st.lifecycle ≠ Lifecycle.Starting
  ∧ st.lifecycle ≠ Lifecycle.Stopping

/-- A state reached from `initState` by one `start` whose process dies
within the 3 s grace interval with exit code 1: the handle is retained
while the lifecycle is Error and `last_exit_code` is set. -/
def deadStartState : SupState :=
  runOp initState (Op.opStart false (StartEnv.spawned ⟨100⟩ false 1))

/-- A state reached from `initState` by one successful `start`
(handle pid 7, alive after the grace interval). -/
def onlineState : SupState :=
  runOp initState (Op.opStart false (StartEnv.spawned ⟨7⟩ true 0))

/-- A state with a fresh handle (pid 2) from a second successful `start`,
issued after the first process (pid 1) crashed: the first start spawned
pid 1 and went Online; pid 1 then died on its own (liveness false at the
second start), and the second start spawned pid 2 and went Online. The
relay thread of pid 1 is still pending at this point. -/
def freshStartState : SupState :=
  runOp (runOp initState (Op.opStart false (StartEnv.spawned ⟨1⟩ true 0)))
        (Op.opStart false (StartEnv.spawned ⟨2⟩ true 0))

theorem codeInvariant_runOp (st : SupState) (op : Op)
    (h : codeInvariant st) : codeInvariant (runOp st op) := by
  obtain ⟨h1, h2, h3, h4⟩ := h
  cases op with
  | opStart a e =>
      simp only [runOp, start_server]
      by_cases hr : server_running st a = true
      · simp [hr]; exact ⟨h1, h2, h3, h4⟩
      · simp only [hr, if_false, Bool.false_eq_true]
        cases e with
        | launchNotFound => simp [codeInvariant]
        | spawnErr => simp [codeInvariant]
        | spawned hnd alive code =>
            by_cases ha : alive = true
            · simp [ha, codeInvariant]
            · simp only [Bool.not_eq_true] at ha
              simp [ha, codeInvariant]
  | opStop a t e =>
      simp only [runOp, stop_server]
      by_cases hr : server_running st a = true
      · simp only [hr, if_true]
        cases e with
        | writeFail => simp [codeInvariant]
        | waitTimeout => simp [codeInvariant]
        | waitErr => simp [codeInvariant]
        | exited code =>
            by_cases hc : code = 0
            · simp [hc, codeInvariant]
            · simp [hc, codeInvariant]
      · simp [hr]; exact ⟨h1, h2, h3, h4⟩
  | opKill a e =>
      simp only [runOp, kill_server]
      by_cases hr : server_running st a = true
      · simp [hr, codeInvariant]
      · simp [hr]; exact ⟨h1, h2, h3, h4⟩
  | opStatus a =>
      exact ⟨h1, h2, h3, h4⟩

theorem codeInvariant_reachable (st : SupState) (h : Reachable st) :
    codeInvariant st := by
  induction h with
  | init => unfold codeInvariant; decide
  | next st op _ ih => exact codeInvariant_runOp st op ih

/-- A state reached from `onlineState` by a `stop` whose wait times out:
the error flag is set, the lifecycle is Error, and the handle (pid 7) is
retained because the process is still alive. -/
def stopTimeoutState : SupState :=
  runOp onlineState (Op.opStop true 5 StopEnv.waitTimeout)

/-- C1 counterexample: the claimed invariant (handle present iff
lifecycle is Starting/Online/Stopping, and `last_exit_code = None` while
the handle is present) fails on a reachable state: after a `start` whose
process dies within the grace interval, the handle is retained while the
lifecycle is Error and `last_exit_code` is set to the exit code. -/
theorem C1_spec_invariant_fails :
    Reachable deadStartState ∧ ¬ specInvariant deadStartState := by
  refine ⟨Reachable.next initState _ Reachable.init, ?_⟩
  unfold specInvariant
  decide

/-- C1 (amended): after every sequence of completed public operations,
the lifecycle is never Starting or Stopping; the handle is absent
whenever the lifecycle is Offline; and in lifecycle Online the handle is
present with `last_exit_code = None` and the error flag clear. The
handle may however be retained while the lifecycle is Error (failed
start, stop timeout, stop-signal failure), with `last_exit_code`
possibly set. -/
theorem C1_handle_lifecycle_invariant (st : SupState) (h : Reachable st) :
    codeInvariant st :=
  codeInvariant_reachable st h

/-- Witness for C1: the amended invariant evaluated on the concrete
reachable state after one successful `start`. -/
theorem C1_handle_lifecycle_invariant_witness : codeInvariant onlineState :=
  C1_handle_lifecycle_invariant onlineState
    (Reachable.next initState (Op.opStart false (StartEnv.spawned ⟨7⟩ true 0))
      Reachable.init)

/-- C2 counterexample: with the lifecycle already Error and a stale
handle from a crashed process (liveness false), `kill` hits the
`server_running()` guard and fails with NotRunning; the state is left in
Error with the stale handle, not transitioned to Offline with the error
flag cleared as the claim states. -/
theorem C2_kill_on_stale_error_is_not_running :
    Reachable deadStartState
    ∧ deadStartState.lifecycle = Lifecycle.Error
    ∧ deadStartState.server_process.isSome = true
    ∧ (kill_server deadStartState false ⟨false, false, none⟩).2 =
        KillResult.notRunning
    ∧ (kill_server deadStartState false ⟨false, false, none⟩).1.lifecycle ≠
        Lifecycle.Offline
    ∧ (kill_server deadStartState false ⟨false, false, none⟩).1.server_in_error =
        true := by
  refine ⟨Reachable.next initState _ Reachable.init, ?_⟩
  decide

/-- C2 (amended): if `kill` is invoked while the process is not alive
(liveness predicate false) — in particular in lifecycle Error with a
stale handle from a crashed process — it fails with NotRunning and
leaves the state entirely unchanged: the stale handle is retained and no
transition to Offline happens. -/
theorem C2_kill_stale_error_not_running (st : SupState) (env : KillEnv)
    (_hlc : st.lifecycle = Lifecycle.Error)
    (hp : st.server_process.isSome = true) :
    kill_server st false env = (st, KillResult.notRunning) := by
  cases hsp : st.server_process with
  | none => simp [hsp] at hp
  | some h => simp [kill_server, server_running, hsp]

/-- Witness for C2 (amended) at the concrete reachable stale-Error
state. -/
theorem C2_kill_stale_error_not_running_witness :
    kill_server deadStartState false ⟨false, false, none⟩ =
      (deadStartState, KillResult.notRunning) :=
  C2_kill_stale_error_not_running deadStartState ⟨false, false, none⟩
    (by decide) (by decide)

/-- C3 (confirmed): when the stop wait times out, `stop_server` returns
ShutdownTimeout carrying the configured timeout value, sets the error
flag, transitions to Error, and does not clear the handle; a subsequent
`kill` (the process being still alive) passes the NotRunning guard,
completes, and clears the handle. -/
theorem C3_stop_timeout_then_kill (st : SupState) (aliveNow : Bool) (t : Nat)
    (kenv : KillEnv) (hrun : server_running st aliveNow = true) :
    (stop_server st aliveNow t StopEnv.waitTimeout).2 =
        StopResult.shutdownTimeout t
    ∧ (stop_server st aliveNow t StopEnv.waitTimeout).1.server_in_error = true
    ∧ (stop_server st aliveNow t StopEnv.waitTimeout).1.lifecycle =
        Lifecycle.Error
    ∧ (stop_server st aliveNow t StopEnv.waitTimeout).1.server_process =
        st.server_process
    ∧ (stop_server st aliveNow t StopEnv.waitTimeout).1.server_process.isSome =
        true
    ∧ (kill_server (stop_server st aliveNow t StopEnv.waitTimeout).1 true
        kenv).2 = KillResult.killed
    ∧ (kill_server (stop_server st aliveNow t StopEnv.waitTimeout).1 true
        kenv).1.server_process = none := by
  cases hsp : st.server_process with
  | none => simp [server_running, hsp] at hrun
  | some h =>
      simp only [server_running, hsp] at hrun
      simp [stop_server, kill_server, server_running, hsp, hrun]

/-- Witness for C3 at the concrete Online state, timeout 5. -/
theorem C3_stop_timeout_then_kill_witness :
    (kill_server (stop_server onlineState true 5 StopEnv.waitTimeout).1 true
        ⟨false, false, some (-1)⟩).1.server_process = none :=
  (C3_stop_timeout_then_kill onlineState true 5 ⟨false, false, some (-1)⟩
    (by decide)).2.2.2.2.2.2

/-- C4 (confirmed): every `kill` call that does not fail with NotRunning
clears the handle, clears the error flag, transitions to Offline, and
records `last_exit_code` as the observed `poll()` value, or the sentinel
`-1` when the poll/kill block raised; this is independent of what the
taskkill tree-termination call did, since `kill_process_tree` swallows
its own timeouts and errors. -/
theorem C4_kill_postcondition (st : SupState) (aliveNow : Bool)
    (env : KillEnv)
    (h : (kill_server st aliveNow env).2 ≠ KillResult.notRunning) :
    (kill_server st aliveNow env).1.server_process = none
    ∧ (kill_server st aliveNow env).1.server_in_error = false
    ∧ (kill_server st aliveNow env).1.lifecycle = Lifecycle.Offline
    ∧ (env.pollFails = false →
        (kill_server st aliveNow env).1.last_exit_code = env.finalPoll)
    ∧ (env.pollFails = true →
        (kill_server st aliveNow env).1.last_exit_code = some (-1)) := by
  by_cases hr : server_running st aliveNow = true
  · cases hpf : env.pollFails <;> simp [kill_server, hr, hpf]
  · simp [kill_server, hr] at h

/-- Witness for C4 at the concrete Online state, with the poll block
raising (sentinel branch). -/
theorem C4_kill_postcondition_witness :
    (kill_server onlineState true ⟨true, true, none⟩).1.last_exit_code =
      some (-1) :=
  (C4_kill_postcondition onlineState true ⟨true, true, none⟩
    (by decide)).2.2.2.2 rfl

/-- C5 (confirmed): when the process exits within the stop timeout,
`stop_server` records the exit code into `last_exit_code`; a nonzero
code sets the error flag and transitions to Error, a zero code clears
the flag and transitions to Offline; in both branches the handle is
cleared. -/
theorem C5_stop_exit_recorded (st : SupState) (aliveNow : Bool) (t : Nat)
    (c : Int) (hrun : server_running st aliveNow = true) :
    (stop_server st aliveNow t (StopEnv.exited c)).1.last_exit_code = some c
    ∧ (stop_server st aliveNow t (StopEnv.exited c)).1.server_process = none
    ∧ (c ≠ 0 →
        (stop_server st aliveNow t (StopEnv.exited c)).1.server_in_error = true
        ∧ (stop_server st aliveNow t (StopEnv.exited c)).1.lifecycle =
            Lifecycle.Error
        ∧ (stop_server st aliveNow t (StopEnv.exited c)).2 =
            StopResult.stoppedWithError c)
    ∧ (c = 0 →
        (stop_server st aliveNow t (StopEnv.exited c)).1.server_in_error = false
        ∧ (stop_server st aliveNow t (StopEnv.exited c)).1.lifecycle =
            Lifecycle.Offline
        ∧ (stop_server st aliveNow t (StopEnv.exited c)).2 =
            StopResult.stopped c) := by
  by_cases hc : c = 0 <;> simp [stop_server, hrun, hc]

/-- Witness for C5 at the concrete Online state with exit code 5. -/
theorem C5_stop_exit_recorded_witness :
    (stop_server onlineState true 10 (StopEnv.exited 5)).1.last_exit_code =
      some 5 :=
  (C5_stop_exit_recorded onlineState true 10 5 (by decide)).1

/-- C6 (confirmed): `start` from a non-running state (in particular
lifecycle Offline or Error) clears the error flag and `last_exit_code`,
spawns with stdin writable and stdout/stderr captured, waits the fixed
3-second grace interval, then re-checks liveness: a dead process yields
recorded exit code, error flag set, lifecycle Error and StartupFailed
carrying the code; a live process yields lifecycle Online and success
(with the flag and `last_exit_code` left cleared). -/
theorem C6_start_grace_and_outcome (st : SupState) (aliveNow : Bool)
    (h : ProcHandle) (alive : Bool) (code : Int)
    (hnot : server_running st aliveNow = false)
    (_hlc : st.lifecycle = Lifecycle.Offline ∨ st.lifecycle = Lifecycle.Error) :
    grace_seconds = 3
    ∧ start_popen_config.stdin_pipe = true
    ∧ start_popen_config.stdout_pipe = true
    ∧ start_popen_config.stderr_to_stdout = true
    ∧ (alive = false →
        (start_server st aliveNow
          (StartEnv.spawned h alive code)).1.last_exit_code = some code
        ∧ (start_server st aliveNow
            (StartEnv.spawned h alive code)).1.server_in_error = true
        ∧ (start_server st aliveNow
            (StartEnv.spawned h alive code)).1.lifecycle = Lifecycle.Error
        ∧ (start_server st aliveNow (StartEnv.spawned h alive code)).2 =
            StartResult.startupFailed code)
    ∧ (alive = true →
        (start_server st aliveNow
          (StartEnv.spawned h alive code)).1.lifecycle = Lifecycle.Online
        ∧ (start_server st aliveNow
            (StartEnv.spawned h alive code)).1.server_in_error = false
        ∧ (start_server st aliveNow
            (StartEnv.spawned h alive code)).1.last_exit_code = none
        ∧ (start_server st aliveNow
            (StartEnv.spawned h alive code)).1.server_process = some h
        ∧ (start_server st aliveNow (StartEnv.spawned h alive code)).2 =
            StartResult.started) := by
  cases alive <;> simp [start_server, hnot, grace_seconds, start_popen_config]

/-- Witness for C6 at the initial (Offline) state: spawn dies within the
grace interval with code 1, so start reports StartupFailed 1. -/
theorem C6_start_grace_and_outcome_witness :
    (start_server initState false (StartEnv.spawned ⟨9⟩ false 1)).2 =
      StartResult.startupFailed 1 :=
  ((C6_start_grace_and_outcome initState false ⟨9⟩ false 1 (by decide)
    (Or.inl rfl)).2.2.2.2.1 rfl).2.2.2

/-- C7 (confirmed): when the monitor thread runs with a handle present,
stream closure with final code `c` records `last_exit_code = c` and sets
the error flag exactly when `c` is nonzero (a zero code leaves the flag
as it was — the set is performed iff the code is nonzero); a read
exception sets the error flag before returning; and in every case the
thread terminates with `last_exit_code` recorded or the error flag set,
never neither. -/
theorem C7_monitor_updates_state (st : SupState) (h : ProcHandle)
    (env : MonitorEnv) (hp : st.server_process = some h) :
    (∀ code, env = MonitorEnv.streamClosed code →
        (monitor_process st env).last_exit_code = some code
        ∧ (code ≠ 0 → (monitor_process st env).server_in_error = true)
        ∧ (code = 0 →
            (monitor_process st env).server_in_error = st.server_in_error))
    ∧ (env = MonitorEnv.readErr →
        (monitor_process st env).server_in_error = true)
    ∧ ((monitor_process st env).last_exit_code ≠ none
        ∨ (monitor_process st env).server_in_error = true) := by
  cases env with
  | streamClosed c =>
      refine ⟨?_, by simp, ?_⟩
      · intro code hcode
        cases hcode
        by_cases hc : c = 0 <;> simp [monitor_process, hp, hc]
      · by_cases hc : c = 0 <;> simp [monitor_process, hp, hc]
  | readErr =>
      refine ⟨?_, ?_, ?_⟩
      · intro code hcode
        cases hcode
      · intro _
        simp [monitor_process, hp]
      · exact Or.inr (by simp [monitor_process, hp])

/-- Witness for C7 at the concrete Online state with stream closure and
exit code 2. -/
theorem C7_monitor_updates_state_witness :
    (monitor_process onlineState (MonitorEnv.streamClosed 2)).last_exit_code =
      some 2 :=
  ((C7_monitor_updates_state onlineState ⟨7⟩ (MonitorEnv.streamClosed 2)
    (by decide)).1 2 rfl).1

/-- C8 counterexample: no generation/identity check exists. After the
first process (pid 1) crashed and a fresh `start` spawned pid 2, the
stale relay thread of pid 1 observing its stream close with exit code 1
writes `last_exit_code = 1` and sets the error flag into the fresh
process's state — corrupting it, although the current handle (pid 2) is
not the handle the relay was started for (pid 1). -/
theorem C8_stale_relay_corrupts :
    Reachable freshStartState
    ∧ freshStartState.server_process = some ⟨2⟩
    ∧ freshStartState.server_in_error = false
    ∧ freshStartState.last_exit_code = none
    ∧ monitor_process freshStartState (MonitorEnv.streamClosed 1) ≠
        freshStartState
    ∧ (monitor_process freshStartState
        (MonitorEnv.streamClosed 1)).last_exit_code = some 1
    ∧ (monitor_process freshStartState
        (MonitorEnv.streamClosed 1)).server_in_error = true := by
  refine ⟨Reachable.next _ _ (Reachable.next initState _ Reachable.init), ?_⟩
  decide

/-- C8 (amended): the monitor thread performs no identity check at all —
whenever any handle is present in the current state, stream closure
writes `last_exit_code` (and sets the error flag for a nonzero code)
regardless of which process the relay was started for; the only guard is
that an absent handle at thread entry suppresses all writes. -/
theorem C8_no_identity_check (st : SupState) (c : Int) :
    (st.server_process.isSome = true →
        (monitor_process st (MonitorEnv.streamClosed c)).last_exit_code = some c
        ∧ (c ≠ 0 →
            (monitor_process st
              (MonitorEnv.streamClosed c)).server_in_error = true))
    ∧ (st.server_process = none →
        monitor_process st (MonitorEnv.streamClosed c) = st) := by
  cases hsp : st.server_process with
  | none => simp [monitor_process, hsp]
  | some h =>
      by_cases hc : c = 0 <;> simp [monitor_process, hsp, hc]

/-- Witness for C8 (amended) on the fresh-start state: the stale
closure event writes the exit code although the handle changed. -/
theorem C8_no_identity_check_witness :
    (monitor_process freshStartState
      (MonitorEnv.streamClosed 3)).last_exit_code = some 3 :=
  ((C8_no_identity_check freshStartState 3).1 (by decide)).1

/-- C9 (confirmed): whenever the supervised process is alive, `start`
fails with AlreadyRunning and the returned state is exactly the input
state — handle, error flag and `last_exit_code` all unchanged. -/
theorem C9_start_already_running (st : SupState) (aliveNow : Bool)
    (env : StartEnv) (hrun : server_running st aliveNow = true) :
    start_server st aliveNow env = (st, StartResult.alreadyRunning) := by
  simp [start_server, hrun]

/-- Witness for C9 at the concrete Online state. -/
theorem C9_start_already_running_witness :
    start_server onlineState true StartEnv.spawnErr =
      (onlineState, StartResult.alreadyRunning) :=
  C9_start_already_running onlineState true StartEnv.spawnErr (by decide)

/-- C10 (confirmed): in `status_cmd`, liveness takes precedence over the
error flag — with a handle present and the process alive the headline is
Online for every state, including those with the error flag set; the
headline is Error exactly when the process is not running and the flag
is set; and Offline when not running with the flag clear. -/
theorem C10_status_liveness_precedence (st : SupState) (aliveNow : Bool) :
    (st.server_process.isSome = true → aliveNow = true →
        status_cmd st aliveNow = StatusView.online)
    ∧ (status_cmd st aliveNow = StatusView.error ↔
        server_running st aliveNow = false ∧ st.server_in_error = true)
    ∧ (server_running st aliveNow = false → st.server_in_error = false →
        status_cmd st aliveNow = StatusView.offline) := by
  cases hsp : st.server_process <;> cases aliveNow <;>
    cases hse : st.server_in_error <;>
    simp [status_cmd, server_running, hsp, hse]

/-- Witness for C10 on the stop-timeout state: the handle is present,
the process alive and the error flag set, yet status reports Online. -/
theorem C10_status_liveness_precedence_witness :
    status_cmd stopTimeoutState true = StatusView.online :=
  (C10_status_liveness_precedence stopTimeoutState true).1 (by decide) rfl

end Startovator
